import Mathlib

/-!
Verification of the JBAssist Microsoft Graph MCP server.

This file gives a shallow embedding of the authentication and
tool-dispatch layer of the repository:

* `src/auth.ts` — credential classification (`isDemoCredentials`), the two
  authentication providers (`MockAuthProvider`, `CustomAuthProvider`) and
  the two Graph client factories (`initializeGraphClient`,
  `initializeGraphBetaClient`);
* `src/index.ts` (strict entry point) — environment resolution, startup
  failure behaviour, the zod input schemas and the ten tool handlers;
* the lenient entry point variant (demo-placeholder fallback,
  `isUsingRealAuth`, the short-circuiting `get-profile` and `get-emails`
  handlers and the `check-auth` tool).

External effects are made explicit: the outcome of a remote Graph API call
is an `Except String _` argument handed to the handler, locale-dependent
date rendering is an arbitrary `String -> String` argument, and every
handler additionally reports whether it reached a Graph API call (the
`Bool` component of its result), so that claims about "no outbound HTTP
call" can be stated.
-/

/-! ### JavaScript string and truthiness semantics -/

/-- JS `String.prototype.includes`: `strIncludes s sub` is true iff `sub`
occurs as a contiguous (case-sensitive) substring of `s`. -/
def strIncludes (s sub : String) : Bool :=
  decide (sub.toList <:+: s.toList)

/-- Splitting a character list at every occurrence of `sep`
(JS `String.prototype.split` with a single-character separator). -/
def splitCharsOn (sep : Char) : List Char → List (List Char)
  | [] => [[]]
  | c :: rest =>
    match splitCharsOn sep rest with
    | [] => [[]]
    | h :: t => if c = sep then [] :: h :: t else (c :: h) :: t

/-- JS `s.split(",")`. -/
def jsSplitComma (s : String) : List String :=
  (splitCharsOn ',' s.toList).map (fun l => String.mk l)

/-- JS `String.prototype.toLowerCase` (ASCII case folding). -/
def jsToLowerCase (s : String) : String :=
  String.mk (s.toList.map Char.toLower)

/-- JS `String.prototype.trim`. -/
def jsTrim (s : String) : String :=
  String.mk (((s.toList.dropWhile Char.isWhitespace).reverse.dropWhile
    Char.isWhitespace).reverse)

/-- Truthiness of a possibly-undefined JS string (`undefined` and the empty
string are falsy). -/
def jsTruthy : Option String → Bool
  | none => false
  | some s => s ≠ ""

/-- JS `v || dflt` for a possibly-undefined string `v` and a string
default. -/
def jsOrDefault (v : Option String) (dflt : String) : String :=
  match v with
  | none => dflt
  | some s => if s = "" then dflt else s

/-- JS `a || b` where both operands are possibly-undefined strings. -/
def jsOrOpt (a b : Option String) : Option String :=
  match a with
  | none => b
  | some s => if s = "" then b else some s

/-- Interpolation of a possibly-undefined JS value into a template literal
(`undefined` renders as the text "undefined"). -/
def jsShow : Option String → String
  | none => "undefined"
  | some s => s

/-- JS `arr && arr.length > 0` for a possibly-undefined array. -/
def jsArrayNonempty : Option (List α) → Bool
  | none => false
  | some l => decide (0 < l.length)

/-! ### The authentication layer (src/auth.ts) -/

/-- The two authentication provider variants of `src/auth.ts`:
`MockAuthProvider` (demo mode) and `CustomAuthProvider`, which owns the
credential triple and the requested scopes. -/
inductive AuthProvider where
  | mock : AuthProvider
  | custom (tenantId clientId clientSecret : String) (scopes : List String) : AuthProvider
deriving DecidableEq

/-- A Graph client as produced by `Client.initWithMiddleware`: the chosen
authentication provider plus the base URL the request builder is bound
to. -/
structure GraphClient where
  authProvider : AuthProvider
  baseUrl : String
deriving DecidableEq

/-- Modelled from the spec: the default base URL of the external
`@microsoft/microsoft-graph-client` SDK, which `initializeGraphClient`
relies on by passing no `baseUrl` option (spec section 3: a GraphClient is
bound to `https://graph.microsoft.com/v1.0` or `.../beta`). -/
def GRAPH_DEFAULT_BASE_URL : String := "https://graph.microsoft.com/v1.0"

/-- Base URL passed explicitly by `initializeGraphBetaClient`
(`src/auth.ts` line 117). -/
def GRAPH_BETA_BASE_URL : String := "https://graph.microsoft.com/beta"

/-- Demo-credential classification (`src/auth.ts` lines 61-63): a triple is
demo iff any field contains the substring "demo". -/
def isDemoCredentials (tenantId clientId clientSecret : String) : Bool :=
  strIncludes tenantId "demo" || strIncludes clientId "demo" ||
    strIncludes clientSecret "demo"

/-- The standard client factory (`src/auth.ts` lines 66-94).  An empty
(JS-falsy) field is a fatal configuration error; otherwise the provider is
selected by `isDemoCredentials` and the client is built against the SDK
default base URL. -/
def initializeGraphClient (tenantId clientId clientSecret : String)
    (scopes : List String) : Except String GraphClient :=
  if tenantId = "" ∨ clientId = "" ∨ clientSecret = "" then
    .error "Missing required credentials for authentication"
  else if isDemoCredentials tenantId clientId clientSecret then
    .ok { authProvider := .mock, baseUrl := GRAPH_DEFAULT_BASE_URL }
  else
    .ok { authProvider := .custom tenantId clientId clientSecret scopes,
          baseUrl := GRAPH_DEFAULT_BASE_URL }

/-- The beta client factory (`src/auth.ts` lines 97-126): identical to
`initializeGraphClient` except that the client is built with
`baseUrl: "https://graph.microsoft.com/beta"`. -/
def initializeGraphBetaClient (tenantId clientId clientSecret : String)
    (scopes : List String) : Except String GraphClient :=
  if tenantId = "" ∨ clientId = "" ∨ clientSecret = "" then
    .error "Missing required credentials for authentication"
  else if isDemoCredentials tenantId clientId clientSecret then
    .ok { authProvider := .mock, baseUrl := GRAPH_BETA_BASE_URL }
  else
    .ok { authProvider := .custom tenantId clientId clientSecret scopes,
          baseUrl := GRAPH_BETA_BASE_URL }

/-- `getAccessToken` of the two providers (`src/auth.ts` lines 31-57).
The mock provider ignores the upstream identity backend entirely and
returns the constant "demo-token".  The custom provider forwards the
outcome of `credential.getToken(scopes)` — modelled by the `exchange`
argument — returning the token on success and rethrowing the error on
failure. -/
def getAccessToken (p : AuthProvider) (exchange : Except String String) :
    Except String String :=
  match p with
  | .mock => .ok "demo-token"
  | .custom _ _ _ _ =>
    match exchange with
    | .ok token => .ok token
    | .error e => .error e

/-- Modelled from the spec (section 4.3, behaviour of the external Graph
SDK middleware): each Graph API call first obtains a token from the
client provider; failure to obtain a token propagates as the triggering
call error, otherwise the HTTP outcome `httpResult` is returned. -/
def graphApiGet (p : AuthProvider) (exchange : Except String String)
    (httpResult : Except String α) : Except String α :=
  match getAccessToken p exchange with
  | .error e => .error e
  | .ok _ => httpResult

/-! ### Environment resolution and startup (the two entry points) -/

/-- The slice of the process environment read at startup; `none` models an
unset variable. -/
structure Env where
  TENANT_ID : Option String
  CLIENT_ID : Option String
  CLIENT_SECRET : Option String
  SCOPES : Option String
deriving DecidableEq

/-- Scope resolution, common to both entry points:
`(process.env.SCOPES || "User.Read").split(",")`. -/
def resolvedScopes (e : Env) : List String :=
  jsSplitComma (jsOrDefault e.SCOPES "User.Read")

/-- Lenient entry point tenant id:
`process.env.TENANT_ID || "demo-tenant-id"`. -/
def lenientTenantId (e : Env) : String :=
  jsOrDefault e.TENANT_ID "demo-tenant-id"

/-- Lenient entry point client id:
`process.env.CLIENT_ID || "demo-client-id"`. -/
def lenientClientId (e : Env) : String :=
  jsOrDefault e.CLIENT_ID "demo-client-id"

/-- Lenient entry point client secret:
`process.env.CLIENT_SECRET || "demo-client-secret"`. -/
def lenientClientSecret (e : Env) : String :=
  jsOrDefault e.CLIENT_SECRET "demo-client-secret"

/-- Lenient entry point real-auth flag:
`process.env.TENANT_ID && process.env.CLIENT_ID && process.env.CLIENT_SECRET`
coerced to a boolean (all three set and non-empty). -/
def isUsingRealAuth (e : Env) : Bool :=
  jsTruthy e.TENANT_ID && jsTruthy e.CLIENT_ID && jsTruthy e.CLIENT_SECRET

/-- Strict entry point startup (`src/index.ts` lines 29-41): a missing or
empty credential variable throws before any client is constructed;
otherwise both clients are built from the resolved values. -/
def strictStartup (e : Env) : Except String (GraphClient × GraphClient) :=
  if jsTruthy e.TENANT_ID = false ∨ jsTruthy e.CLIENT_ID = false ∨
      jsTruthy e.CLIENT_SECRET = false then
    .error "Missing required environment variables for authentication"
  else do
    let g ← initializeGraphClient (e.TENANT_ID.getD "") (e.CLIENT_ID.getD "")
      (e.CLIENT_SECRET.getD "") (resolvedScopes e)
    let gb ← initializeGraphBetaClient (e.TENANT_ID.getD "") (e.CLIENT_ID.getD "")
      (e.CLIENT_SECRET.getD "") (resolvedScopes e)
    return (g, gb)

/-- Exit behaviour of the strict entry point: any setup error is caught by
the top-level catch, which calls `process.exit(1)`; on success the server
keeps running (no exit during startup, modelled as `none`). -/
def strictStartupExitCode (e : Env) : Option Nat :=
  match strictStartup e with
  | .error _ => some 1
  | .ok _ => none

/-! ### Tool dispatch: responses and input schemas -/

/-- One item of a tool response content list. -/
structure ContentItem where
  type : String
  text : String
deriving DecidableEq

/-- A tool handler response: `{ content: [...] }`. -/
structure ToolResult where
  content : List ContentItem
deriving DecidableEq

/-- The response shape every handler return statement uses:
`{ content: [{ type: "text", text: s }] }`. -/
def textResult (s : String) : ToolResult :=
  { content := [{ type := "text", text := s }] }

/-- Checks the dispatcher output contract: exactly one content item, of
type "text". -/
def isSingleTextContent (r : ToolResult) : Bool :=
  match r.content with
  | [item] => item.type == "text"
  | _ => false

/-- Validation of a zod field `z.number().min(minv).max(maxv).default(dflt)`
against a possibly-absent numeric argument.  An absent argument takes the
default; a present argument must lie within the bounds. -/
def zodNumberField (minv maxv dflt : Int) (input : Option Int) : Except String Int :=
  match input with
  | none => .ok dflt
  | some n =>
    if n < minv then
      .error ("Number must be greater than or equal to " ++ toString minv)
    else if maxv < n then
      .error ("Number must be less than or equal to " ++ toString maxv)
    else .ok n

/-- Validation of a required zod field `z.string().min(minLen)`. -/
def zodStringMin (minLen : Nat) (input : Option String) : Except String String :=
  match input with
  | none => .error "Required"
  | some s =>
    if s.length < minLen then
      .error ("String must contain at least " ++ toString minLen ++ " character(s)")
    else .ok s

/-! ### Graph API response shapes (the fields the handlers read) -/

/-- A user profile as read by the get-profile handler. -/
structure UserProfile where
  id : Option String
  displayName : Option String
  mail : Option String
  userPrincipalName : Option String
  jobTitle : Option String
  department : Option String
  officeLocation : Option String
deriving DecidableEq

/-- An email address object: `{ name, address }`. -/
structure EmailAddress where
  name : Option String
  address : Option String
deriving DecidableEq

/-- A recipient wrapper: `{ emailAddress: {...} }`. -/
structure Recipient where
  emailAddress : EmailAddress
deriving DecidableEq

/-- A message as selected by the get-emails handler. -/
structure Message where
  subject : Option String
  «from» : Recipient
  receivedDateTime : String
  bodyPreview : Option String
deriving DecidableEq

/-- A `{ dateTime }` block of a calendar event. -/
structure DateTimeBlock where
  dateTime : String
deriving DecidableEq

/-- A calendar event location object. -/
structure EventLocation where
  displayName : Option String
deriving DecidableEq

/-- A calendar event as selected by the get-calendar-events handler. -/
structure CalendarEvent where
  subject : Option String
  organizer : Recipient
  start : DateTimeBlock
  «end» : DateTimeBlock
  location : Option EventLocation
deriving DecidableEq

/-- A directory user as selected by the search-users handler. -/
structure DirectoryUser where
  displayName : Option String
  mail : Option String
  userPrincipalName : Option String
  jobTitle : Option String
  department : Option String
deriving DecidableEq

/-- A Graph collection response: `{ value: [...] }`, where `value` may be
absent. -/
structure GraphListResponse (α : Type) where
  value : Option (List α)
deriving DecidableEq

/-! ### Tool handlers of the strict entry point (src/index.ts)

Each handler takes the outcome of its Graph API call (or calls) as an
explicit `Except String _` argument and returns the tool response paired
with a `Bool` recording whether a Graph API call was reached on that
execution path. -/

/-- Profile text built by the get-profile handler
(`src/index.ts` lines 54-62). -/
def formatUserProfileText (user : UserProfile) : String :=
  "\nUser Profile Information:\nDisplay Name: " ++ jsOrDefault user.displayName "N/A" ++
  "\nEmail: " ++ jsOrDefault (jsOrOpt user.mail user.userPrincipalName) "N/A" ++
  "\nJob Title: " ++ jsOrDefault user.jobTitle "N/A" ++
  "\nDepartment: " ++ jsOrDefault user.department "N/A" ++
  "\nOffice Location: " ++ jsOrDefault user.officeLocation "N/A" ++
  "\nUser ID: " ++ jsShow user.id ++ "\n"

/-- The get-profile handler (`src/index.ts` lines 44-84). -/
def getProfileHandler (fetched : Except String UserProfile) : ToolResult × Bool :=
  match fetched with
  | .ok user => (textResult (formatUserProfileText user), true)
  | .error err => (textResult ("Failed to retrieve user profile: " ++ err), true)

/-- One entry of the email list (`src/index.ts` lines 115-125);
`toLocale` renders `new Date(receivedDateTime).toLocaleString()`. -/
def formatEmail (toLocale : String → String) (index : Nat) (message : Message) : String :=
  "Email " ++ toString (index + 1) ++ ":\nFrom: " ++
    jsShow (jsOrOpt message.«from».emailAddress.name message.«from».emailAddress.address) ++
  "\nDate: " ++ toLocale message.receivedDateTime ++
  "\nSubject: " ++ jsShow message.subject ++
  "\nPreview: " ++ jsShow message.bodyPreview ++ "\n---"

/-- The get-emails handler body (`src/index.ts` lines 93-146), run with the
schema-validated `count`. -/
def getEmailsHandler (toLocale : String → String) (count : Int)
    (fetched : Except String (GraphListResponse Message)) : ToolResult × Bool :=
  match fetched with
  | .error err => (textResult ("Failed to retrieve emails: " ++ err), true)
  | .ok messages =>
    match messages.value with
    | none => (textResult "No emails found in the inbox.", true)
    | some msgs =>
      if msgs.length = 0 then
        (textResult "No emails found in the inbox.", true)
      else
        (textResult ("Recent " ++ toString count ++ " emails:\n\n" ++
          String.intercalate "\n\n" (msgs.mapIdx (formatEmail toLocale))), true)

/-- One entry of the calendar event list (`src/index.ts` lines 189-202). -/
def formatEvent (toLocale : String → String) (index : Nat) (event : CalendarEvent) : String :=
  "Event " ++ toString (index + 1) ++ ":\nSubject: " ++ jsShow event.subject ++
  "\nOrganizer: " ++
    jsShow (jsOrOpt event.organizer.emailAddress.name event.organizer.emailAddress.address) ++
  "\nStart: " ++ toLocale (event.start.dateTime ++ "Z") ++
  "\nEnd: " ++ toLocale (event.«end».dateTime ++ "Z") ++
  "\nLocation: " ++ jsOrDefault (event.location.bind EventLocation.displayName)
    "No location specified" ++ "\n---"

/-- The get-calendar-events handler body (`src/index.ts` lines 156-223),
run with the schema-validated `days`. -/
def getCalendarEventsHandler (toLocale : String → String) (days : Int)
    (fetched : Except String (GraphListResponse CalendarEvent)) : ToolResult × Bool :=
  match fetched with
  | .error err => (textResult ("Failed to retrieve calendar events: " ++ err), true)
  | .ok events =>
    match events.value with
    | none =>
      (textResult ("No calendar events found in the next " ++ toString days ++ " days."), true)
    | some evs =>
      if evs.length = 0 then
        (textResult ("No calendar events found in the next " ++ toString days ++ " days."), true)
      else
        (textResult ("Calendar events for the next " ++ toString days ++ " days:\n\n" ++
          String.intercalate "\n\n" (evs.mapIdx (formatEvent toLocale))), true)

/-- One entry of the user search result list (`src/index.ts` lines 256-263). -/
def formatDirectoryUser (index : Nat) (user : DirectoryUser) : String :=
  "User " ++ toString (index + 1) ++ ":\nName: " ++ jsOrDefault user.displayName "N/A" ++
  "\nEmail: " ++ jsOrDefault (jsOrOpt user.mail user.userPrincipalName) "N/A" ++
  "\nTitle: " ++ jsOrDefault user.jobTitle "N/A" ++
  "\nDepartment: " ++ jsOrDefault user.department "N/A" ++ "\n---"

/-- The search-users handler body (`src/index.ts` lines 234-284), run with
the schema-validated `query` and `limit`. -/
def searchUsersHandler (query : String) (_limit : Int)
    (fetched : Except String (GraphListResponse DirectoryUser)) : ToolResult × Bool :=
  match fetched with
  | .error err => (textResult ("Failed to search users: " ++ err), true)
  | .ok users =>
    match users.value with
    | none =>
      (textResult ("No users found matching \x27" ++ query ++ "\x27."), true)
    | some l =>
      if l.length = 0 then
        (textResult ("No users found matching \x27" ++ query ++ "\x27."), true)
      else
        (textResult ("Users matching \x27" ++ query ++ "\x27:\n\n" ++
          String.intercalate "\n\n" (l.mapIdx formatDirectoryUser)), true)

/-! ### Beta API tool handlers (src/index.ts, NEW BETA API TOOLS) -/

/-- Truthiness of a possibly-undefined JS number (`undefined` and `0` are
falsy), used for the graduationYear check. -/
def jsTruthyInt : Option Int → Bool
  | none => false
  | some n => n ≠ 0

/-- JS `s += extra` guarded by `if (cond)`. -/
def appendIf (cond : Bool) (s extra : String) : String :=
  if cond then s ++ extra else s

/-- A school entry of the enhanced profile. -/
structure School where
  description : Option String
  graduationYear : Option Int
deriving DecidableEq

/-- The enhanced user profile as selected by get-enhanced-profile. -/
structure EnhancedUser where
  id : Option String
  displayName : Option String
  mail : Option String
  userPrincipalName : Option String
  jobTitle : Option String
  department : Option String
  officeLocation : Option String
  aboutMe : Option String
  skills : Option (List String)
  interests : Option (List String)
  pastProjects : Option (List String)
  responsibilities : Option (List String)
  schools : Option (List School)
  preferredLanguage : Option String
  otherMails : Option (List String)
  businessPhones : Option (List String)
  mobilePhone : Option String
  birthday : Option String
deriving DecidableEq

/-- One education line of the enhanced profile
(`src/index.ts` lines 365-371). -/
def formatSchool (school : School) : String :=
  "- " ++ jsOrDefault school.description "Unnamed School" ++
    (if jsTruthyInt school.graduationYear then
      " (Graduation: " ++ toString (school.graduationYear.getD 0) ++ ")"
    else "") ++ "\n"

/-- The enhanced profile text (`src/index.ts` lines 303-372); `toLocaleDate`
renders `new Date(birthday).toLocaleDateString()`. -/
def formatEnhancedProfile (toLocaleDate : String → String) (user : EnhancedUser) : String :=
  let p := "\nEnhanced User Profile (Beta API):\nDisplay Name: " ++
    jsOrDefault user.displayName "N/A" ++
    "\nEmail: " ++ jsOrDefault (jsOrOpt user.mail user.userPrincipalName) "N/A" ++
    "\nJob Title: " ++ jsOrDefault user.jobTitle "N/A" ++
    "\nDepartment: " ++ jsOrDefault user.department "N/A" ++
    "\nOffice Location: " ++ jsOrDefault user.officeLocation "N/A" ++ "\n"
  let p := appendIf (jsArrayNonempty user.businessPhones) p
    ("Business Phone: " ++ String.intercalate ", " (user.businessPhones.getD []) ++ "\n")
  let p := appendIf (jsTruthy user.mobilePhone) p
    ("Mobile Phone: " ++ jsShow user.mobilePhone ++ "\n")
  let p := appendIf (jsArrayNonempty user.otherMails) p
    ("Alternative Emails: " ++ String.intercalate ", " (user.otherMails.getD []) ++ "\n")
  let p := appendIf (jsTruthy user.preferredLanguage) p
    ("Preferred Language: " ++ jsShow user.preferredLanguage ++ "\n")
  let p := appendIf (jsTruthy user.birthday) p
    ("Birthday: " ++ toLocaleDate (jsShow user.birthday) ++ "\n")
  let p := appendIf (jsTruthy user.aboutMe) p
    ("\nAbout Me:\n" ++ jsShow user.aboutMe ++ "\n")
  let p := appendIf (jsArrayNonempty user.skills) p
    ("\nSkills:\n" ++ String.intercalate "\n- " (user.skills.getD []) ++ "\n")
  let p := appendIf (jsArrayNonempty user.interests) p
    ("\nInterests:\n" ++ String.intercalate "\n- " (user.interests.getD []) ++ "\n")
  let p := appendIf (jsArrayNonempty user.pastProjects) p
    ("\nPast Projects:\n" ++ String.intercalate "\n- " (user.pastProjects.getD []) ++ "\n")
  let p := appendIf (jsArrayNonempty user.responsibilities) p
    ("\nResponsibilities:\n" ++ String.intercalate "\n- " (user.responsibilities.getD []) ++ "\n")
  appendIf (jsArrayNonempty user.schools) p
    ("\nEducation:\n" ++ String.join ((user.schools.getD []).map formatSchool))

/-- The get-enhanced-profile handler (`src/index.ts` lines 290-394). -/
def getEnhancedProfileHandler (toLocaleDate : String → String)
    (fetched : Except String EnhancedUser) : ToolResult × Bool :=
  match fetched with
  | .ok user => (textResult (formatEnhancedProfile toLocaleDate user), true)
  | .error err => (textResult ("Failed to retrieve enhanced user profile: " ++ err), true)

/-- An organisation user as read by get-direct-reports and get-manager. -/
structure OrgUser where
  id : Option String
  displayName : Option String
  mail : Option String
  userPrincipalName : Option String
  jobTitle : Option String
  department : Option String
  officeLocation : Option String
  businessPhones : Option (List String)
  mobilePhone : Option String
deriving DecidableEq

/-- One entry of the direct reports list (`src/index.ts` lines 424-431). -/
def formatDirectReport (index : Nat) (user : OrgUser) : String :=
  "Direct Report " ++ toString (index + 1) ++ ":\nName: " ++
    jsOrDefault user.displayName "N/A" ++
  "\nEmail: " ++ jsOrDefault (jsOrOpt user.mail user.userPrincipalName) "N/A" ++
  "\nTitle: " ++ jsOrDefault user.jobTitle "N/A" ++
  "\nDepartment: " ++ jsOrDefault user.department "N/A" ++
  "\nOffice: " ++ jsOrDefault user.officeLocation "N/A" ++ "\n---"

/-- The get-direct-reports handler (`src/index.ts` lines 397-454); `userId`
is the optional schema argument (it only selects the endpoint of the
remote call, which is modelled by `fetched`). -/
def getDirectReportsHandler (_userId : Option String)
    (fetched : Except String (GraphListResponse OrgUser)) : ToolResult × Bool :=
  match fetched with
  | .error err => (textResult ("Failed to retrieve direct reports: " ++ err), true)
  | .ok directReports =>
    match directReports.value with
    | none => (textResult "No direct reports found.", true)
    | some l =>
      if l.length = 0 then
        (textResult "No direct reports found.", true)
      else
        (textResult ("Direct Reports:\n\n" ++
          String.intercalate "\n\n" (l.mapIdx formatDirectReport)), true)

/-- The manager information text (`src/index.ts` lines 484-491). -/
def formatManager (manager : OrgUser) : String :=
  "\nManager Information:\nName: " ++ jsOrDefault manager.displayName "N/A" ++
  "\nEmail: " ++ jsOrDefault (jsOrOpt manager.mail manager.userPrincipalName) "N/A" ++
  "\nTitle: " ++ jsOrDefault manager.jobTitle "N/A" ++
  "\nDepartment: " ++ jsOrDefault manager.department "N/A" ++
  "\nOffice: " ++ jsOrDefault manager.officeLocation "N/A" ++ "\n" ++
  (match manager.businessPhones with
   | some (p :: _) => "Business Phone: " ++ p ++ "\n"
   | _ => "") ++
  (if jsTruthy manager.mobilePhone then
    "Mobile Phone: " ++ jsShow manager.mobilePhone ++ "\n"
  else "")

/-- The get-manager handler (`src/index.ts` lines 457-513); the fetched
manager may be a JS-falsy value (modelled by `none`). -/
def getManagerHandler (_userId : Option String)
    (fetched : Except String (Option OrgUser)) : ToolResult × Bool :=
  match fetched with
  | .error err => (textResult ("Failed to retrieve manager information: " ++ err), true)
  | .ok none => (textResult "No manager information found.", true)
  | .ok (some manager) => (textResult (formatManager manager), true)

/-- A presence object as read by get-presence and get-teamwork. -/
structure Presence where
  availability : Option String
  activity : Option String
  status : Option String
  statusMessage : Option String
  lastModifiedDateTime : Option String
deriving DecidableEq

/-- The presence information text (`src/index.ts` lines 549-556). -/
def formatPresence (toLocale : String → String) (presence : Presence) : String :=
  "\nPresence Information:\nAvailability: " ++ jsOrDefault presence.availability "N/A" ++
  "\nActivity: " ++ jsOrDefault presence.activity "N/A" ++
  "\nStatus: " ++ jsOrDefault presence.status "N/A" ++ "\n" ++
  (if jsTruthy presence.statusMessage then
    "Status Message: " ++ jsShow presence.statusMessage ++ "\n"
  else "") ++
  "\nLast Modified: " ++
  (if jsTruthy presence.lastModifiedDateTime then
    toLocale (jsShow presence.lastModifiedDateTime)
  else "N/A") ++ "\n"

/-- The get-presence handler (`src/index.ts` lines 516-578); the fetched
presence may be JS-falsy (modelled by `none`). -/
def getPresenceHandler (toLocale : String → String) (_userId : Option String)
    (fetched : Except String (Option Presence)) : ToolResult × Bool :=
  match fetched with
  | .error err => (textResult ("Failed to retrieve presence information: " ++ err), true)
  | .ok none => (textResult "No presence information found.", true)
  | .ok (some presence) => (textResult (formatPresence toLocale presence), true)

/-- A team as selected by get-teamwork. -/
structure Team where
  id : Option String
  displayName : Option String
  description : Option String
  visibility : Option String
deriving DecidableEq

/-- One team block of the teamwork text (`src/index.ts` lines 615-623). -/
def formatTeam (index : Nat) (team : Team) : String :=
  "\nTeam " ++ toString (index + 1) ++ ":\nName: " ++ jsOrDefault team.displayName "N/A" ++
  "\nDescription: " ++ jsOrDefault team.description "N/A" ++
  "\nVisibility: " ++ jsOrDefault team.visibility "N/A" ++
  "\nID: " ++ jsShow team.id ++ "\n"

/-- The get-teamwork handler (`src/index.ts` lines 581-648).  Its two
sequential Graph calls (joined teams, then presence) are modelled as one
`Except` of the pair of possibly-falsy responses: a failure of either call
lands in the shared catch. -/
def getTeamworkHandler
    (fetched : Except String (Option (GraphListResponse Team) × Option Presence)) :
    ToolResult × Bool :=
  match fetched with
  | .error err => (textResult ("Failed to retrieve teamwork information: " ++ err), true)
  | .ok (joinedTeams, presence) =>
    let info := "\nMicrosoft Teams Information:\n"
    let info := match presence with
      | some p => info ++ "\nPresence:\nStatus: " ++ jsOrDefault p.availability "N/A" ++
          "\nActivity: " ++ jsOrDefault p.activity "N/A" ++ "\n"
      | none => info
    let info := match joinedTeams with
      | some jt =>
        if jsArrayNonempty jt.value then
          info ++ "\nJoined Teams (" ++ toString (jt.value.getD []).length ++ "):\n" ++
            String.join ((jt.value.getD []).mapIdx formatTeam)
        else info ++ "\nNo teams found for this user."
      | none => info ++ "\nNo teams found for this user."
    (textResult info, true)

/-- A user as selected by advanced-user-search. -/
structure AdvancedUser where
  id : Option String
  displayName : Option String
  mail : Option String
  userPrincipalName : Option String
  jobTitle : Option String
  department : Option String
  officeLocation : Option String
  skills : Option (List String)
  businessPhones : Option (List String)
  mobilePhone : Option String
deriving DecidableEq

/-- The OData filter string built by advanced-user-search
(`src/index.ts` lines 665-674). -/
def advancedSearchFilter (query : String) (department jobTitle : Option String) : String :=
  let filter := "startswith(displayName,\x27" ++ query ++ "\x27) or startswith(mail,\x27" ++
    query ++ "\x27) or startswith(userPrincipalName,\x27" ++ query ++ "\x27)"
  let filter := appendIf (jsTruthy department) filter
    (" and department eq \x27" ++ jsShow department ++ "\x27")
  appendIf (jsTruthy jobTitle) filter
    (" and jobTitle eq \x27" ++ jsShow jobTitle ++ "\x27")

/-- Client-side skills filtering of advanced-user-search
(`src/index.ts` lines 693-705). -/
def filterBySkills (skills : Option String) (users : List AdvancedUser) : List AdvancedUser :=
  if jsTruthy skills then
    let skillsArray := (jsSplitComma (jsShow skills)).map (fun s => jsToLowerCase (jsTrim s))
    users.filter (fun user =>
      match user.skills with
      | none => false
      | some us => us.any (fun skill => skillsArray.contains (jsToLowerCase skill)))
  else users

/-- One entry of the advanced search result list
(`src/index.ts` lines 718-743). -/
def formatAdvancedUser (index : Nat) (user : AdvancedUser) : String :=
  let info := "User " ++ toString (index + 1) ++ ":\nName: " ++
    jsOrDefault user.displayName "N/A" ++
    "\nEmail: " ++ jsOrDefault (jsOrOpt user.mail user.userPrincipalName) "N/A" ++
    "\nTitle: " ++ jsOrDefault user.jobTitle "N/A" ++
    "\nDepartment: " ++ jsOrDefault user.department "N/A" ++
    "\nOffice: " ++ jsOrDefault user.officeLocation "N/A" ++ "\n"
  let info := appendIf (jsArrayNonempty user.businessPhones) info
    ("Business Phone: " ++ String.intercalate ", " (user.businessPhones.getD []) ++ "\n")
  let info := appendIf (jsTruthy user.mobilePhone) info
    ("Mobile Phone: " ++ jsShow user.mobilePhone ++ "\n")
  let info := appendIf (jsArrayNonempty user.skills) info
    ("Skills: " ++ String.intercalate ", " (user.skills.getD []) ++ "\n")
  info ++ "---"

/-- The advanced-user-search handler body (`src/index.ts` lines 661-764),
run with the schema-validated arguments. -/
def advancedUserSearchHandler (_query : String) (_department _jobTitle : Option String)
    (skills : Option String) (_limit : Int)
    (fetched : Except String (GraphListResponse AdvancedUser)) : ToolResult × Bool :=
  match fetched with
  | .error err => (textResult ("Failed to perform advanced user search: " ++ err), true)
  | .ok users =>
    match users.value with
    | none => (textResult "No users found matching the criteria.", true)
    | some l =>
      if l.length = 0 then
        (textResult "No users found matching the criteria.", true)
      else
        let filteredUsers := filterBySkills skills l
        if filteredUsers.length = 0 then
          (textResult "No users found with the specified skills.", true)
        else
          (textResult ("Advanced User Search Results:\n\n" ++
            String.intercalate "\n\n" (filteredUsers.mapIdx formatAdvancedUser)), true)

/-! ### Tool handlers of the lenient entry point -/

/-- The authentication-required notice the lenient entry point handlers
return when the environment credentials are not configured. -/
def AUTH_REQUIRED_TEXT : String :=
  "Authentication configuration is required to use this feature. Please set up TENANT_ID, CLIENT_ID, and CLIENT_SECRET environment variables."

/-- The lenient get-profile handler: short-circuits on
`!isUsingRealAuth` before the Graph call, otherwise identical to the
strict handler body. -/
def getProfileHandlerLenient (usingRealAuth : Bool)
    (fetched : Except String UserProfile) : ToolResult × Bool :=
  if usingRealAuth = false then
    (textResult AUTH_REQUIRED_TEXT, false)
  else
    getProfileHandler fetched

/-- The lenient get-emails handler body: short-circuits on
`!isUsingRealAuth` before the Graph call, otherwise identical to the
strict handler body. -/
def getEmailsHandlerLenient (toLocale : String → String) (usingRealAuth : Bool)
    (count : Int) (fetched : Except String (GraphListResponse Message)) : ToolResult × Bool :=
  if usingRealAuth = false then
    (textResult AUTH_REQUIRED_TEXT, false)
  else
    getEmailsHandler toLocale count fetched

/-- The setup-help text of the check-auth tool. -/
def CHECK_AUTH_SETUP_HELP : String :=
  "To use JBAssist with Microsoft Graph, you need to set up authentication:\n\n1. Create a .env file in the root directory with:\n   TENANT_ID=your-tenant-id\n   CLIENT_ID=your-client-id\n   CLIENT_SECRET=your-client-secret\n   SCOPES=User.Read,Mail.Read,Calendars.Read,User.Read.All\n\n2. Get these values from Azure Portal:\n   - Register an app in Azure Active Directory\n   - Note the Application (client) ID and Directory (tenant) ID\n   - Create a client secret\n   - Grant appropriate permissions\n\nSee the README.md for detailed instructions."

/-- The check-auth handler of the lenient entry point: reports the
configuration status; performs no Graph call at all. -/
def checkAuthHandler (usingRealAuth : Bool) : ToolResult × Bool :=
  (textResult ("\nAuthentication Status: " ++
    (if usingRealAuth then "✅ Configured" else "❌ Not Configured") ++ "\n\n" ++
    (if usingRealAuth = false then CHECK_AUTH_SETUP_HELP
     else "Authentication is properly configured. All Graph API features should be available.") ++
    "\n"), false)

/-! ### Dispatcher invocation (schema validation before the handler) -/

/-- Dispatcher invocation of get-emails: `count` is validated against
`z.number().min(1).max(50).default(10)`; on a violation the handler never
runs (the result is a schema error that does not depend on `fetched`, so
no Graph call occurs). -/
def invokeGetEmails (toLocale : String → String) (countArg : Option Int)
    (fetched : Except String (GraphListResponse Message)) :
    Except String (ToolResult × Bool) :=
  match zodNumberField 1 50 10 countArg with
  | .error e => .error e
  | .ok count => .ok (getEmailsHandler toLocale count fetched)

/-- Dispatcher invocation of search-users: `query` is validated against
`z.string().min(3)` and `limit` against
`z.number().min(1).max(20).default(5)`; on a violation the handler never
runs. -/
def invokeSearchUsers (queryArg : Option String) (limitArg : Option Int)
    (fetched : Except String (GraphListResponse DirectoryUser)) :
    Except String (ToolResult × Bool) :=
  match zodStringMin 3 queryArg, zodNumberField 1 20 5 limitArg with
  | .error e, _ => .error e
  | .ok _, .error e => .error e
  | .ok query, .ok limit => .ok (searchUsersHandler query limit fetched)

/-! ### Helper lemmas -/

theorem jsOrDefault_of_falsy (v : Option String) (d : String) (h : jsTruthy v = false) :
    jsOrDefault v d = d := by
  cases v with
  | none => rfl
  | some s =>
    unfold jsTruthy at h
    simp only [ne_eq, decide_not, Bool.not_eq_false', decide_eq_true_eq] at h
    simp [jsOrDefault, h]

theorem jsOrDefault_ne_empty (v : Option String) (d : String) (hd : d ≠ "") :
    jsOrDefault v d ≠ "" := by
  cases v with
  | none => exact hd
  | some s =>
    by_cases hs : s = ""
    · simp [jsOrDefault, hs, hd]
    · simp [jsOrDefault, hs]

theorem lenientTenantId_ne_empty (e : Env) : lenientTenantId e ≠ "" :=
  jsOrDefault_ne_empty _ _ (by decide)

theorem lenientClientId_ne_empty (e : Env) : lenientClientId e ≠ "" :=
  jsOrDefault_ne_empty _ _ (by decide)

theorem lenientClientSecret_ne_empty (e : Env) : lenientClientSecret e ≠ "" :=
  jsOrDefault_ne_empty _ _ (by decide)

theorem isUsingRealAuth_eq_false_iff (e : Env) :
    isUsingRealAuth e = false ↔
      (jsTruthy e.TENANT_ID = false ∨ jsTruthy e.CLIENT_ID = false ∨
        jsTruthy e.CLIENT_SECRET = false) := by
  unfold isUsingRealAuth
  cases jsTruthy e.TENANT_ID <;> cases jsTruthy e.CLIENT_ID <;>
    cases jsTruthy e.CLIENT_SECRET <;> simp

theorem lenient_demo_of_missing (e : Env)
    (h : jsTruthy e.TENANT_ID = false ∨ jsTruthy e.CLIENT_ID = false ∨
      jsTruthy e.CLIENT_SECRET = false) :
    isDemoCredentials (lenientTenantId e) (lenientClientId e) (lenientClientSecret e) = true := by
  unfold isDemoCredentials
  rcases h with h1 | h2 | h3
  · unfold lenientTenantId
    rw [jsOrDefault_of_falsy _ _ h1]
    simp [(by decide : strIncludes "demo-tenant-id" "demo" = true)]
  · unfold lenientClientId
    rw [jsOrDefault_of_falsy _ _ h2]
    simp [(by decide : strIncludes "demo-client-id" "demo" = true)]
  · unfold lenientClientSecret
    rw [jsOrDefault_of_falsy _ _ h3]
    simp [(by decide : strIncludes "demo-client-secret" "demo" = true)]

theorem strIncludes_append_left (a b sub : String) (h : strIncludes a sub = true) :
    strIncludes (a ++ b) sub = true := by
  unfold strIncludes at h ⊢
  rw [decide_eq_true_iff] at h ⊢
  have hl : (a ++ b).toList = a.toList ++ b.toList := rfl
  rw [hl]
  exact List.IsInfix.trans h (List.prefix_append _ _).isInfix

theorem singleText_getProfile (fetched : Except String UserProfile) :
    isSingleTextContent (getProfileHandler fetched).1 = true := by
  rcases fetched with e | u <;> rfl

theorem singleText_getEmails (toLocale : String → String) (count : Int)
    (fetched : Except String (GraphListResponse Message)) :
    isSingleTextContent (getEmailsHandler toLocale count fetched).1 = true := by
  unfold getEmailsHandler
  rcases fetched with e | ⟨_ | l⟩
  · rfl
  · rfl
  · dsimp only
    split <;> rfl

theorem singleText_getCalendarEvents (toLocale : String → String) (days : Int)
    (fetched : Except String (GraphListResponse CalendarEvent)) :
    isSingleTextContent (getCalendarEventsHandler toLocale days fetched).1 = true := by
  unfold getCalendarEventsHandler
  rcases fetched with e | ⟨_ | l⟩
  · rfl
  · rfl
  · dsimp only
    split <;> rfl

theorem singleText_searchUsers (query : String) (limit : Int)
    (fetched : Except String (GraphListResponse DirectoryUser)) :
    isSingleTextContent (searchUsersHandler query limit fetched).1 = true := by
  unfold searchUsersHandler
  rcases fetched with e | ⟨_ | l⟩
  · rfl
  · rfl
  · dsimp only
    split <;> rfl

theorem singleText_getEnhancedProfile (toLocaleDate : String → String)
    (fetched : Except String EnhancedUser) :
    isSingleTextContent (getEnhancedProfileHandler toLocaleDate fetched).1 = true := by
  rcases fetched with e | u <;> rfl

theorem singleText_getDirectReports (userId : Option String)
    (fetched : Except String (GraphListResponse OrgUser)) :
    isSingleTextContent (getDirectReportsHandler userId fetched).1 = true := by
  unfold getDirectReportsHandler
  rcases fetched with e | ⟨_ | l⟩
  · rfl
  · rfl
  · dsimp only
    split <;> rfl

theorem singleText_getManager (userId : Option String)
    (fetched : Except String (Option OrgUser)) :
    isSingleTextContent (getManagerHandler userId fetched).1 = true := by
  rcases fetched with e | (_ | m) <;> rfl

theorem singleText_getPresence (toLocale : String → String) (userId : Option String)
    (fetched : Except String (Option Presence)) :
    isSingleTextContent (getPresenceHandler toLocale userId fetched).1 = true := by
  rcases fetched with e | (_ | p) <;> rfl

theorem singleText_getTeamwork
    (fetched : Except String (Option (GraphListResponse Team) × Option Presence)) :
    isSingleTextContent (getTeamworkHandler fetched).1 = true := by
  rcases fetched with e | ⟨jt, p⟩ <;> rfl

theorem singleText_advancedUserSearch (query : String) (department jobTitle : Option String)
    (skills : Option String) (limit : Int)
    (fetched : Except String (GraphListResponse AdvancedUser)) :
    isSingleTextContent
      (advancedUserSearchHandler query department jobTitle skills limit fetched).1 = true := by
  unfold advancedUserSearchHandler
  rcases fetched with e | ⟨_ | l⟩
  · rfl
  · rfl
  · dsimp only
    split
    · rfl
    · split <;> rfl

theorem singleText_getProfileLenient (usingRealAuth : Bool)
    (fetched : Except String UserProfile) :
    isSingleTextContent (getProfileHandlerLenient usingRealAuth fetched).1 = true := by
  unfold getProfileHandlerLenient
  split
  · rfl
  · exact singleText_getProfile fetched

theorem singleText_getEmailsLenient (toLocale : String → String) (usingRealAuth : Bool)
    (count : Int) (fetched : Except String (GraphListResponse Message)) :
    isSingleTextContent (getEmailsHandlerLenient toLocale usingRealAuth count fetched).1 = true := by
  unfold getEmailsHandlerLenient
  split
  · rfl
  · exact singleText_getEmails toLocale count fetched

theorem singleText_checkAuth (usingRealAuth : Bool) :
    isSingleTextContent (checkAuthHandler usingRealAuth).1 = true := rfl

/-! ### Claim theorems -/

/-- C1: for every credential triple with all three fields non-empty, the
client factory succeeds, selects the MockTokenProvider iff at least one of
the three fields contains the substring "demo" (case-sensitive), and
selects the RealTokenProvider (the custom provider owning the triple and
scopes) otherwise. -/
theorem provider_selection_iff_demo (t c s : String) (sc : List String)
    (ht : t ≠ "") (hc : c ≠ "") (hs : s ≠ "") :
    ∃ g : GraphClient, initializeGraphClient t c s sc = .ok g ∧
      (g.authProvider = .mock ↔
        (strIncludes t "demo" || strIncludes c "demo" || strIncludes s "demo") = true) ∧
      ((strIncludes t "demo" || strIncludes c "demo" || strIncludes s "demo") = false →
        g.authProvider = .custom t c s sc) := by
  have hne : ¬(t = "" ∨ c = "" ∨ s = "") := by
    push_neg
    exact ⟨ht, hc, hs⟩
  unfold initializeGraphClient isDemoCredentials
  rw [if_neg hne]
  by_cases hd : (strIncludes t "demo" || strIncludes c "demo" || strIncludes s "demo") = true
  · rw [if_pos hd]
    refine ⟨_, rfl, ?_, ?_⟩
    · simp [hd]
    · intro hf
      rw [hf] at hd
      cases hd
  · rw [if_neg hd]
    refine ⟨_, rfl, ?_, fun _ => rfl⟩
    simp only [Bool.not_eq_true] at hd
    simp [hd]

/-- Witness for C1 at concrete inputs: a triple whose secret contains
"demo" yields the mock provider. -/
theorem provider_selection_iff_demo_witness :
    ∃ g : GraphClient,
      initializeGraphClient "contoso-tenant" "client-1" "demo-secret" ["User.Read"] = .ok g ∧
      (g.authProvider = .mock ↔
        (strIncludes "contoso-tenant" "demo" || strIncludes "client-1" "demo" ||
          strIncludes "demo-secret" "demo") = true) ∧
      ((strIncludes "contoso-tenant" "demo" || strIncludes "client-1" "demo" ||
          strIncludes "demo-secret" "demo") = false →
        g.authProvider = .custom "contoso-tenant" "client-1" "demo-secret" ["User.Read"]) :=
  provider_selection_iff_demo "contoso-tenant" "client-1" "demo-secret" ["User.Read"]
    (by decide) (by decide) (by decide)

/-- C3: constructing the standard and the beta client from one and the same
credential triple yields clients bound to the two distinct base URLs
(v1.0 versus beta) that carry the very same authentication provider
value. -/
theorem clients_distinct_base_same_provider (t c s : String) (sc : List String)
    (ht : t ≠ "") (hc : c ≠ "") (hs : s ≠ "") :
    ∃ g gb : GraphClient,
      initializeGraphClient t c s sc = .ok g ∧
      initializeGraphBetaClient t c s sc = .ok gb ∧
      g.baseUrl = "https://graph.microsoft.com/v1.0" ∧
      gb.baseUrl = "https://graph.microsoft.com/beta" ∧
      g.baseUrl ≠ gb.baseUrl ∧
      g.authProvider = gb.authProvider := by
  have hne : ¬(t = "" ∨ c = "" ∨ s = "") := by
    push_neg
    exact ⟨ht, hc, hs⟩
  unfold initializeGraphClient initializeGraphBetaClient
  rw [if_neg hne, if_neg hne]
  by_cases hd : isDemoCredentials t c s = true
  · rw [if_pos hd, if_pos hd]
    refine ⟨_, _, rfl, rfl, rfl, rfl, ?_, rfl⟩
    show GRAPH_DEFAULT_BASE_URL ≠ GRAPH_BETA_BASE_URL
    decide
  · rw [if_neg hd, if_neg hd]
    refine ⟨_, _, rfl, rfl, rfl, rfl, ?_, rfl⟩
    show GRAPH_DEFAULT_BASE_URL ≠ GRAPH_BETA_BASE_URL
    decide

/-- Witness for C3 at a concrete real (non-demo) triple. -/
theorem clients_distinct_base_same_provider_witness :
    ∃ g gb : GraphClient,
      initializeGraphClient "tenant-1" "client-1" "secret-1" ["User.Read"] = .ok g ∧
      initializeGraphBetaClient "tenant-1" "client-1" "secret-1" ["User.Read"] = .ok gb ∧
      g.baseUrl = "https://graph.microsoft.com/v1.0" ∧
      gb.baseUrl = "https://graph.microsoft.com/beta" ∧
      g.baseUrl ≠ gb.baseUrl ∧
      g.authProvider = gb.authProvider :=
  clients_distinct_base_same_provider "tenant-1" "client-1" "secret-1" ["User.Read"]
    (by decide) (by decide) (by decide)

/-- C5: every call of the mock provider getAccessToken returns the constant
"demo-token" and never fails, whatever the upstream identity backend would
have answered and however many calls were made before. -/
theorem mock_token_constant (exchange : Except String String)
    (calls : List (Except String String)) :
    getAccessToken .mock exchange = .ok "demo-token" ∧
    calls.map (getAccessToken .mock) = calls.map (fun _ => .ok "demo-token") := by
  constructor
  · rfl
  · induction calls with
    | nil => rfl
    | cons h t ih =>
      simp only [List.map_cons, ih]
      rfl

/-- C6: a credential triple with a missing or empty field makes both client
factories fail with the fatal configuration error instead of producing a
client, and the strict entry point aborts startup with exit code 1 whenever
one of the three environment variables is unset or empty. -/
theorem missing_credentials_fatal (t c s : String) (sc : List String) (e : Env)
    (hstr : t = "" ∨ c = "" ∨ s = "")
    (henv : jsTruthy e.TENANT_ID = false ∨ jsTruthy e.CLIENT_ID = false ∨
      jsTruthy e.CLIENT_SECRET = false) :
    initializeGraphClient t c s sc =
      .error "Missing required credentials for authentication" ∧
    initializeGraphBetaClient t c s sc =
      .error "Missing required credentials for authentication" ∧
    strictStartup e =
      .error "Missing required environment variables for authentication" ∧
    strictStartupExitCode e = some 1 := by
  refine ⟨?_, ?_, ?_, ?_⟩
  · unfold initializeGraphClient
    rw [if_pos hstr]
  · unfold initializeGraphBetaClient
    rw [if_pos hstr]
  · unfold strictStartup
    rw [if_pos henv]
  · unfold strictStartupExitCode strictStartup
    rw [if_pos henv]

/-- Witness for C6: empty client secret, and an environment missing
CLIENT_SECRET. -/
theorem missing_credentials_fatal_witness :
    initializeGraphClient "tenant-1" "client-1" "" ["User.Read"] =
      .error "Missing required credentials for authentication" ∧
    initializeGraphBetaClient "tenant-1" "client-1" "" ["User.Read"] =
      .error "Missing required credentials for authentication" ∧
    strictStartup
      { TENANT_ID := some "tenant-1", CLIENT_ID := some "client-1",
        CLIENT_SECRET := none, SCOPES := none } =
      .error "Missing required environment variables for authentication" ∧
    strictStartupExitCode
      { TENANT_ID := some "tenant-1", CLIENT_ID := some "client-1",
        CLIENT_SECRET := none, SCOPES := none } = some 1 :=
  missing_credentials_fatal "tenant-1" "client-1" "" ["User.Read"]
    { TENANT_ID := some "tenant-1", CLIENT_ID := some "client-1",
      CLIENT_SECRET := none, SCOPES := none }
    (by decide) (by decide)

/-- C9: in the lenient entry point, whenever any of TENANT_ID, CLIENT_ID,
CLIENT_SECRET is absent (or empty) in the environment, the substituted
placeholder values each contain "demo", the resolved credential set is
classified as demo, and both client factories select the
MockTokenProvider — a missing environment variable can never lead to a
RealTokenProvider. -/
theorem missing_env_always_mock (e : Env) (sc : List String)
    (h : jsTruthy e.TENANT_ID = false ∨ jsTruthy e.CLIENT_ID = false ∨
      jsTruthy e.CLIENT_SECRET = false) :
    strIncludes "demo-tenant-id" "demo" = true ∧
    strIncludes "demo-client-id" "demo" = true ∧
    strIncludes "demo-client-secret" "demo" = true ∧
    isDemoCredentials (lenientTenantId e) (lenientClientId e) (lenientClientSecret e) = true ∧
    initializeGraphClient (lenientTenantId e) (lenientClientId e) (lenientClientSecret e) sc =
      .ok { authProvider := .mock, baseUrl := GRAPH_DEFAULT_BASE_URL } ∧
    initializeGraphBetaClient (lenientTenantId e) (lenientClientId e) (lenientClientSecret e) sc =
      .ok { authProvider := .mock, baseUrl := GRAPH_BETA_BASE_URL } := by
  have hne : ¬(lenientTenantId e = "" ∨ lenientClientId e = "" ∨ lenientClientSecret e = "") := by
    push_neg
    exact ⟨lenientTenantId_ne_empty e, lenientClientId_ne_empty e, lenientClientSecret_ne_empty e⟩
  refine ⟨by decide, by decide, by decide, lenient_demo_of_missing e h, ?_, ?_⟩
  · unfold initializeGraphClient
    rw [if_neg hne, if_pos (lenient_demo_of_missing e h)]
  · unfold initializeGraphBetaClient
    rw [if_neg hne, if_pos (lenient_demo_of_missing e h)]

/-- Environment used by the C9 witness: only TENANT_ID is missing. -/
def c9Env : Env :=
  { TENANT_ID := none, CLIENT_ID := some "client-1",
    CLIENT_SECRET := some "secret-1", SCOPES := none }

/-- Witness for C9: environment with only TENANT_ID missing. -/
theorem missing_env_always_mock_witness :
    strIncludes "demo-tenant-id" "demo" = true ∧
    strIncludes "demo-client-id" "demo" = true ∧
    strIncludes "demo-client-secret" "demo" = true ∧
    isDemoCredentials (lenientTenantId c9Env) (lenientClientId c9Env)
      (lenientClientSecret c9Env) = true ∧
    initializeGraphClient (lenientTenantId c9Env) (lenientClientId c9Env)
      (lenientClientSecret c9Env) ["User.Read"] =
      .ok { authProvider := .mock, baseUrl := GRAPH_DEFAULT_BASE_URL } ∧
    initializeGraphBetaClient (lenientTenantId c9Env) (lenientClientId c9Env)
      (lenientClientSecret c9Env) ["User.Read"] =
      .ok { authProvider := .mock, baseUrl := GRAPH_BETA_BASE_URL } :=
  missing_env_always_mock c9Env ["User.Read"] (Or.inl (by decide))

/-- Environment refuting C2: all three variables are set (so the lenient
entry point treats auth as configured), but the tenant id contains "demo",
so the factories select the MockTokenProvider. -/
def c2Env : Env :=
  { TENANT_ID := some "demo-tenant", CLIENT_ID := some "real-client",
    CLIENT_SECRET := some "real-secret", SCOPES := none }

/-- Counterexample to C2 as stated: with `c2Env` the MockTokenProvider is
the active provider, yet invoking get-profile does reach the Graph call
(second component true) and, when that call fails, returns the failure
text — which does not contain the authentication-required notice. -/
theorem mock_active_without_short_circuit :
    initializeGraphClient (lenientTenantId c2Env) (lenientClientId c2Env)
      (lenientClientSecret c2Env) (resolvedScopes c2Env) =
      .ok { authProvider := .mock, baseUrl := GRAPH_DEFAULT_BASE_URL } ∧
    isUsingRealAuth c2Env = true ∧
    (getProfileHandlerLenient (isUsingRealAuth c2Env)
      (.error "GraphError: 401 Unauthorized")).2 = true ∧
    (getProfileHandlerLenient (isUsingRealAuth c2Env)
      (.error "GraphError: 401 Unauthorized")).1 =
      textResult "Failed to retrieve user profile: GraphError: 401 Unauthorized" ∧
    strIncludes "Failed to retrieve user profile: GraphError: 401 Unauthorized"
      "Authentication configuration is required" = false :=
  ⟨rfl, by decide, by decide, by decide, by decide⟩

/-- C2 amended: in the lenient entry point, whenever the environment is not
fully configured (so the demo placeholders make the MockTokenProvider the
selected provider), the Graph-dependent tools get-profile and get-emails
short-circuit with the authentication-required notice and perform no Graph
call.  The short-circuit is keyed on the presence of the environment
variables, not on the provider itself. -/
theorem lenient_missing_env_short_circuits (e : Env) (h : isUsingRealAuth e = false)
    (fetchedP : Except String UserProfile) (toLocale : String → String) (count : Int)
    (fetchedM : Except String (GraphListResponse Message)) :
    getProfileHandlerLenient (isUsingRealAuth e) fetchedP =
      (textResult AUTH_REQUIRED_TEXT, false) ∧
    getEmailsHandlerLenient toLocale (isUsingRealAuth e) count fetchedM =
      (textResult AUTH_REQUIRED_TEXT, false) ∧
    isDemoCredentials (lenientTenantId e) (lenientClientId e) (lenientClientSecret e) = true := by
  refine ⟨?_, ?_, lenient_demo_of_missing e ((isUsingRealAuth_eq_false_iff e).mp h)⟩
  · unfold getProfileHandlerLenient
    rw [h]
    rfl
  · unfold getEmailsHandlerLenient
    rw [h]
    rfl

/-- Environment used by the amended C2 witness: CLIENT_SECRET is unset. -/
def noSecretEnv : Env :=
  { TENANT_ID := some "tenant-1", CLIENT_ID := some "client-1",
    CLIENT_SECRET := none, SCOPES := none }

/-- Witness for the amended C2: environment with CLIENT_SECRET unset. -/
theorem lenient_missing_env_short_circuits_witness :
    getProfileHandlerLenient (isUsingRealAuth noSecretEnv) (.error "down") =
      (textResult AUTH_REQUIRED_TEXT, false) ∧
    getEmailsHandlerLenient (fun s => s) (isUsingRealAuth noSecretEnv) 10 (.error "down") =
      (textResult AUTH_REQUIRED_TEXT, false) ∧
    isDemoCredentials (lenientTenantId noSecretEnv) (lenientClientId noSecretEnv)
      (lenientClientSecret noSecretEnv) = true :=
  lenient_missing_env_short_circuits noSecretEnv (by decide) (.error "down")
    (fun s => s) 10 (.error "down")

/-- C4: when the factory has selected the RealTokenProvider and the token
exchange fails with any upstream error, the get-profile tool returns a
normal text response whose text matches Failed to retrieve (no thrown or
unhandled error: the handler is a total function into responses). -/
theorem token_failure_renders_failure_text (sc : List String) (err : String)
    (httpResult : Except String UserProfile) :
    ∃ g : GraphClient, initializeGraphClient "t" "c" "bad" sc = .ok g ∧
      g.authProvider = .custom "t" "c" "bad" sc ∧
      getProfileHandler (graphApiGet g.authProvider (.error err) httpResult) =
        (textResult ("Failed to retrieve user profile: " ++ err), true) ∧
      strIncludes ("Failed to retrieve user profile: " ++ err) "Failed to retrieve" = true := by
  refine ⟨{ authProvider := .custom "t" "c" "bad" sc, baseUrl := GRAPH_DEFAULT_BASE_URL },
    ?_, rfl, rfl, ?_⟩
  · unfold initializeGraphClient
    rw [if_neg (by decide), if_neg (by decide)]
  · exact strIncludes_append_left "Failed to retrieve user profile: " err
      "Failed to retrieve" (by decide)

/-- C7: invoking get-emails with count 0 is rejected by schema validation
(minimum 1) and with count 51 is rejected (maximum 50) — in both cases
before any remote call, since the rejection does not depend on the Graph
outcome — while omitting count runs the handler body with count 10. -/
theorem get_emails_count_bounds (toLocale : String → String)
    (fetched : Except String (GraphListResponse Message)) :
    invokeGetEmails toLocale (some 0) fetched =
      .error "Number must be greater than or equal to 1" ∧
    invokeGetEmails toLocale (some 51) fetched =
      .error "Number must be less than or equal to 50" ∧
    zodNumberField 1 50 10 none = .ok 10 ∧
    invokeGetEmails toLocale none fetched = .ok (getEmailsHandler toLocale 10 fetched) := by
  refine ⟨rfl, rfl, rfl, rfl⟩

/-- C8: invoking search-users with a query shorter than 3 characters is
rejected at the schema layer: the invocation result is the schema error,
independent of the Graph outcome, so the handler never runs and no remote
call is made. -/
theorem search_users_short_query_rejected (q : String) (hq : q.length < 3)
    (limitArg : Option Int) (fetched : Except String (GraphListResponse DirectoryUser)) :
    invokeSearchUsers (some q) limitArg fetched =
      .error "String must contain at least 3 character(s)" := by
  unfold invokeSearchUsers zodStringMin
  dsimp only
  rw [if_pos hq]
  rfl

/-- Witness for C8 at the two-character query "ab". -/
theorem search_users_short_query_rejected_witness :
    invokeSearchUsers (some "ab") none (.error "down") =
      .error "String must contain at least 3 character(s)" :=
  search_users_short_query_rejected "ab" (by decide) none (.error "down")

/-- C10: every registered tool handler — the ten tools of the strict entry
point and the three of the lenient entry point — returns, on its success
path and on its caught-error path alike, a response whose content is
exactly one item of type "text".  Each handler is a total function into
tool responses, so no exception escapes to the dispatcher. -/
theorem handlers_return_single_text_content
    (toLocale toLocaleDate : String → String) (count days limit alimit : Int)
    (query aquery : String) (userId muserId puserId : Option String)
    (department jobTitle skills : Option String) (usingRealAuth : Bool)
    (fProfile : Except String UserProfile)
    (fEmails fEmailsL : Except String (GraphListResponse Message))
    (fEvents : Except String (GraphListResponse CalendarEvent))
    (fUsers : Except String (GraphListResponse DirectoryUser))
    (fEnhanced : Except String EnhancedUser)
    (fReports : Except String (GraphListResponse OrgUser))
    (fManager : Except String (Option OrgUser))
    (fPresence : Except String (Option Presence))
    (fTeamwork : Except String (Option (GraphListResponse Team) × Option Presence))
    (fAdvanced : Except String (GraphListResponse AdvancedUser))
    (fProfileL : Except String UserProfile) :
    isSingleTextContent (getProfileHandler fProfile).1 = true ∧
    isSingleTextContent (getEmailsHandler toLocale count fEmails).1 = true ∧
    isSingleTextContent (getCalendarEventsHandler toLocale days fEvents).1 = true ∧
    isSingleTextContent (searchUsersHandler query limit fUsers).1 = true ∧
    isSingleTextContent (getEnhancedProfileHandler toLocaleDate fEnhanced).1 = true ∧
    isSingleTextContent (getDirectReportsHandler userId fReports).1 = true ∧
    isSingleTextContent (getManagerHandler muserId fManager).1 = true ∧
    isSingleTextContent (getPresenceHandler toLocale puserId fPresence).1 = true ∧
    isSingleTextContent (getTeamworkHandler fTeamwork).1 = true ∧
    isSingleTextContent
      (advancedUserSearchHandler aquery department jobTitle skills alimit fAdvanced).1 = true ∧
    isSingleTextContent (getProfileHandlerLenient usingRealAuth fProfileL).1 = true ∧
    isSingleTextContent (getEmailsHandlerLenient toLocale usingRealAuth count fEmailsL).1 = true ∧
    isSingleTextContent (checkAuthHandler usingRealAuth).1 = true :=
  ⟨singleText_getProfile fProfile,
   singleText_getEmails toLocale count fEmails,
   singleText_getCalendarEvents toLocale days fEvents,
   singleText_searchUsers query limit fUsers,
   singleText_getEnhancedProfile toLocaleDate fEnhanced,
   singleText_getDirectReports userId fReports,
   singleText_getManager muserId fManager,
   singleText_getPresence toLocale puserId fPresence,
   singleText_getTeamwork fTeamwork,
   singleText_advancedUserSearch aquery department jobTitle skills alimit fAdvanced,
   singleText_getProfileLenient usingRealAuth fProfileL,
   singleText_getEmailsLenient toLocale usingRealAuth count fEmailsL,
   singleText_checkAuth usingRealAuth⟩
